import Mathlib

/-!
Verification development for the flake8-bandit plugin
(single source file src/flake8_bandit.py).

The development shallowly embeds the two pieces of logic original to the
repository:

* `Flake8BanditConfig.from_config_file` — parsing of the `[bandit]` INI
  section into a profile (rule include/exclude lists, target paths,
  excluded paths).  The filesystem read and the INI parser are external
  collaborators; they are abstracted as a `ConfigRead` input that is
  either the list of key/value items of the `bandit` section, or an
  error message (the caught `configparser.Error`/`KeyError`/`TypeError`
  exception rendered as a string).  In the source, every operation that
  can raise one of the caught exceptions (`config.read`,
  `config.items("bandit")`) happens before any profile field is
  populated, which this abstraction reflects.

* `BanditTester._check_source` / `BanditTester.run` — the path scope
  filter and the translation of analyzer findings into flake8 result
  tuples.  The external analyzer (bandit `BanditNodeVisitor`) is opaque;
  its output `bnv.tester.results` is abstracted as a `Finding` list
  handed to `check_source`.

Paths are modelled after `pathlib.PurePath` value semantics: a path is
an absolute/relative flag plus the normalized component list (empty
components and lone `.` components are dropped, which is what
`pathlib.Path` does when comparing and computing `parents`).  Sets of
paths in the source are modelled as lists; the claims only depend on
membership.
-/

/-- Model of a `pathlib.Path` value: the absolute flag together with the
normalized list of components.  Two `Path` objects are equal exactly when
these data agree, which mirrors `PurePath.__eq__` on a single flavour. -/
structure PyPath where
  absolute : Bool
  parts : List String
deriving DecidableEq, Repr

/-- Model of Python `str.split(sep)` for a one-character separator, the only
shape used in the source (`","` for configuration values, and implicitly
`"/"` inside the `Path` constructor): split on every occurrence of the
separator, keeping empty pieces, with `[""]` for the empty string. -/
def pySplit (sep : Char) (s : String) : List String :=
  (s.data.splitOn sep).map String.mk

/-- Model of Python `str.startswith(prefix)` for a one-character pattern, the
only shape used in the source (`path.startswith("/")`): the first character
is the given one. -/
def pyStartsWith (s : String) (c : Char) : Bool :=
  s.data.head? == some c

/-- Model of the `Path(string)` constructor: the path is absolute when the
string starts with the separator, and the components are the slash-separated
pieces with empty components and `.` components dropped (the normalization
`pathlib` applies). -/
def parsePath (s : String) : PyPath :=
  { absolute := pyStartsWith s '/'
    parts := (pySplit '/' s).filter (fun c => !(c == "") && !(c == ".")) }

/-- Model of `Path.parents`: the strict ancestors of a path, from the
immediate parent down to the relative-or-absolute root (`.` or `/`),
each keeping the absolute flag of the path itself. -/
def pyParents (p : PyPath) : List PyPath :=
  (List.range p.parts.length).map
    (fun i => { absolute := p.absolute, parts := p.parts.take (p.parts.length - 1 - i) })

/-- Model of Python `str.replace(old, new)` for a one-character pattern, the
only shape used in the source: every occurrence of the character is replaced,
left to right, which for a single character is a character-wise map. -/
def pyReplace (s : String) (old new : Char) : String :=
  String.mk (s.data.map (fun c => if c = old then new else c))

/-- Model of the absolute-to-relative rewrite applied to each configured
path in the source: `if path.startswith("/"): path = "." + path`. -/
def pyAbsRewrite (path : String) : String :=
  if pyStartsWith path '/' then "." ++ path else path

/-- Rule profile dictionary built by `from_config_file`: the optional
`exclude` and `include` keys, each a list of rule identifier strings. -/
structure RuleProfile where
  exclude : Option (List String)
  «include» : Option (List String)
deriving DecidableEq, Repr

/-- The `Flake8BanditConfig` named tuple of the source: the rule profile and
the two path sets (modelled as lists). -/
structure Flake8BanditConfig where
  profile : RuleProfile
  target_paths : List PyPath
  excluded_paths : List PyPath
deriving DecidableEq, Repr

/-- Abstraction of the external configuration read performed by
`config.read(ini_file)` followed by `config.items("bandit")`: either the
key/value items of the `bandit` section, or the string rendering of a raised
`configparser.Error`, `KeyError` or `TypeError`.  A missing configuration
file is read silently by `configparser` and then surfaces as the
missing-section error when `config.items("bandit")` is evaluated. -/
inductive ConfigRead where
  | ok (items : List (String × String))
  | err (msg : String)
deriving DecidableEq, Repr

/-- Result of configuration resolution: the returned `Flake8BanditConfig`
together with what, if anything, was written to the diagnostic stream. -/
structure ConfigResult where
  config : Flake8BanditConfig
  stderrOutput : Option String
deriving DecidableEq, Repr

/-- The single-quote character, used to spell the missing-section message. -/
def squote : String := String.mk [Char.ofNat 39]

/-- The exact string rendering of the missing-section exception raised by
`config.items("bandit")`, compared against in the except branch. -/
def noSectionMsg : String := "No section: " ++ squote ++ "bandit" ++ squote

/-- Model of the dictionary comprehension over the section items followed by
`.get(key)`: a later binding of the same key wins, a missing key gives
`none`. -/
def pyDictGet (items : List (String × String)) (k : String) : Option String :=
  items.reverse.lookup k

/-- Python truthiness of an optional string value, as used in the guards
`if bandit_config.get(...)`: present and non-empty. -/
def pyTruthy : Option String → Bool
  | some s => !(s == "")
  | none => false

/-- Embedding of `Flake8BanditConfig.from_config_file`.  Starting from the
defaults (empty profile, empty path sets) it populates, in the order of the
source: `skips` into `profile["exclude"]` and `tests` into
`profile["include"]` (after `.replace("S", "B")` over the whole value and a
comma split), then `targets` and `exclude` into the path sets (after the
absolute-to-relative rewrite).  A caught exception resets the profile to
empty and writes to stderr unless the message is the missing-section one. -/
def from_config_file (read : ConfigRead) : ConfigResult :=
  match read with
  | .err msg =>
      if msg == noSectionMsg then
        { config := { profile := { exclude := none, «include» := none }
                      target_paths := []
                      excluded_paths := [] }
          stderrOutput := none }
      else
        { config := { profile := { exclude := none, «include» := none }
                      target_paths := []
                      excluded_paths := [] }
          stderrOutput := some ("Unable to parse config file: " ++ msg) }
  | .ok items =>
      let get := pyDictGet items
      let profile : RuleProfile :=
        { exclude :=
            match get "skips" with
            | some s => if s == "" then none else some (pySplit ',' (pyReplace s 'S' 'B'))
            | none => none
          «include» :=
            match get "tests" with
            | some s => if s == "" then none else some (pySplit ',' (pyReplace s 'S' 'B'))
            | none => none }
      let target_paths : List PyPath :=
        match get "targets" with
        | some s => if s == "" then [] else (pySplit ',' s).map (fun p => parsePath (pyAbsRewrite p))
        | none => []
      let excluded_paths : List PyPath :=
        match get "exclude" with
        | some s => if s == "" then [] else (pySplit ',' s).map (fun p => parsePath (pyAbsRewrite p))
        | none => []
      { config := { profile := profile
                    target_paths := target_paths
                    excluded_paths := excluded_paths }
        stderrOutput := none }

/-- One finding of the external analyzer (`bnv.tester.results` item),
read-only view of the fields `_check_source` consumes. -/
structure Finding where
  test_id : String
  text : String
  lineno : Nat
  severity : String
  confidence : String
deriving DecidableEq, Repr

/-- One warning dictionary built by `_check_source` from a finding. -/
structure Warn where
  test_id : String
  issue_text : String
  line_number : Nat
  severity : String
  confidence : String
deriving DecidableEq, Repr

/-- The origin type yielded as the fourth tuple element: `type(self)`, the
`BanditTester` class itself, modelled as a one-value type. -/
inductive OriginType where
  | banditTester
deriving DecidableEq, Repr

/-- The host-facing result tuple `(line_number, 0, message, type(self))`. -/
abbrev ResultTuple := Nat × Nat × String × OriginType

/-- Boolean intersection test on path lists, modelling
`set.intersection` truthiness / `len(... .intersection(...)) == 0`. -/
def pathIntersects (xs ys : List PyPath) : Bool :=
  xs.any (fun x => decide (x ∈ ys))

/-- The set containing the file path and every ancestor directory path,
built by `_check_source`: `filepaths = set(filepath.parents);
filepaths.add(filepath)`. -/
def scopeFilepaths (filepath : PyPath) : List PyPath :=
  filepath :: pyParents filepath

/-- The early-exit condition of `_check_source`: the file is skipped when
`excluded_paths` is non-empty and intersects the path-and-ancestors set, or
when `target_paths` is non-empty and does not intersect it. -/
def scopeSuppressed (config : Flake8BanditConfig) (filepath : PyPath) : Bool :=
  let filepaths := scopeFilepaths filepath
  (!config.excluded_paths.isEmpty && pathIntersects config.excluded_paths filepaths)
    || (!config.target_paths.isEmpty && !pathIntersects config.target_paths filepaths)

/-- The rule identifier remap applied to each finding:
`item.test_id.replace("B", "S")`. -/
def remapTestId (test_id : String) : String :=
  pyReplace test_id 'B' 'S'

/-- Embedding of `BanditTester._check_source`: resolve the scope filter for
the file path and, unless suppressed, translate each analyzer finding into
the warning dictionary (with the `B` to `S` identifier remap).  The analyzer
invocation itself is external; its result list is the `analyzerResults`
argument. -/
def check_source (config : Flake8BanditConfig) (filename : String)
    (analyzerResults : List Finding) : List Warn :=
  let filepath := parsePath filename
  if scopeSuppressed config filepath then []
  else
    analyzerResults.map (fun item =>
      { test_id := remapTestId item.test_id
        issue_text := item.text
        line_number := item.lineno
        severity := item.severity
        confidence := item.confidence })

/-- Embedding of `BanditTester.run`: each warning from `_check_source`
becomes the tuple `(line_number, 0, "<id> <text> (CL: <confidence>,
risk: <severity>)", type(self))`. -/
def run (config : Flake8BanditConfig) (filename : String)
    (analyzerResults : List Finding) : List ResultTuple :=
  (check_source config filename analyzerResults).map (fun warn =>
    (warn.line_number, 0,
      warn.test_id ++ " " ++ warn.issue_text ++ " (CL: " ++ warn.confidence
        ++ ", risk: " ++ warn.severity ++ ")",
      OriginType.banditTester))

/-! Helper lemmas shared by several of the claim theorems below. -/

/-- Membership characterization of the boolean intersection test. -/
theorem pathIntersects_iff (xs ys : List PyPath) :
    pathIntersects xs ys = true ↔ ∃ x ∈ xs, x ∈ ys := by
  simp [pathIntersects]

/-- Every ancestor of a path carries the same absolute flag as the path. -/
theorem mem_pyParents_absolute {a p : PyPath} (h : a ∈ pyParents p) :
    a.absolute = p.absolute := by
  simp only [pyParents, List.mem_map, List.mem_range] at h
  obtain ⟨i, _, rfl⟩ := h
  rfl

/-- Mapping a function over the pieces commutes with prepending an element
to the first piece. -/
theorem modifyHead_cons_map (f : Char → Char) (c : Char) (L : List (List Char)) :
    (L.modifyHead (List.cons c)).map (List.map f)
      = (L.map (List.map f)).modifyHead (List.cons (f c)) := by
  cases L <;> simp

/-- Splitting commutes with a character map that neither creates nor
destroys occurrences of the separator. -/
theorem splitOn_map_of_preserve (f : Char → Char) (sep : Char)
    (hf : ∀ c, f c = sep ↔ c = sep) (l : List Char) :
    (l.map f).splitOn sep = (l.splitOn sep).map (List.map f) := by
  induction l with
  | nil => simp
  | cons c cs ih =>
    have hfc : (f c == sep) = (c == sep) := by
      by_cases hc : c = sep
      · simp [hc, (hf sep).mpr rfl]
      · have hfcne : f c ≠ sep := fun h => hc ((hf c).mp h)
        simp [hc, hfcne]
    simp only [List.splitOn] at ih ⊢
    rw [List.map_cons, List.splitOnP_cons, List.splitOnP_cons, hfc]
    by_cases hc : (c == sep) = true
    · simp [hc, ih]
    · simp only [hc, if_neg, Bool.false_eq_true, not_false_eq_true, ih,
        modifyHead_cons_map]

/-- The blanket character replacement applied to a whole comma-separated
string, as done by the source before splitting, equals splitting first and
then applying the replacement to every token, provided neither the replaced
nor the replacement character is the comma. -/
theorem pySplit_pyReplace (s : String) (old new : Char)
    (hold : old ≠ ',') (hnew : new ≠ ',') :
    pySplit ',' (pyReplace s old new)
      = (pySplit ',' s).map (fun t => pyReplace t old new) := by
  have hf : ∀ c, (if c = old then new else c) = ',' ↔ c = ',' := by
    intro c
    by_cases hc : c = old
    · simp [hc, hnew, hold]
    · simp [hc]
  simp only [pySplit, pyReplace]
  rw [splitOn_map_of_preserve _ ',' hf]
  simp [List.map_map, Function.comp]

/-- C1: for every file whose path, or any ancestor directory of its path, is
a member of the resolved excluded paths, the run method yields an empty
sequence of result tuples, regardless of the contents of the target paths:
the exclusion disjunct of the scope filter in check_source is checked first
and short-circuits everything else, for arbitrary target paths and analyzer
output. -/
theorem excluded_file_run_empty (config : Flake8BanditConfig) (filename : String)
    (analyzerResults : List Finding)
    (h : parsePath filename ∈ config.excluded_paths
      ∨ ∃ a ∈ pyParents (parsePath filename), a ∈ config.excluded_paths) :
    run config filename analyzerResults = [] := by
  have hmem : ∃ p ∈ config.excluded_paths, p ∈ scopeFilepaths (parsePath filename) := by
    rcases h with h | ⟨a, ha, ha2⟩
    · exact ⟨parsePath filename, h, List.mem_cons_self _ _⟩
    · exact ⟨a, ha2, List.mem_cons_of_mem _ ha⟩
  have hne : config.excluded_paths.isEmpty = false := by
    obtain ⟨p, hp, _⟩ := hmem
    rcases hxs : config.excluded_paths with _ | _
    · rw [hxs] at hp; cases hp
    · rfl
  have hsup : scopeSuppressed config (parsePath filename) = true := by
    simp only [scopeSuppressed, Bool.or_eq_true, Bool.and_eq_true, Bool.not_eq_true']
    exact Or.inl ⟨hne, (pathIntersects_iff _ _).mpr hmem⟩
  simp [run, check_source, hsup]

/-- Witness for C1: the directory path a is excluded, so the file a/b.py
gives no results even though it is listed among the targets and the analyzer
reported a finding. -/
theorem excluded_file_run_empty_witness :
    run { profile := { exclude := none, «include» := none },
          target_paths := [parsePath "a/b.py"],
          excluded_paths := [parsePath "a"] } "a/b.py"
        [{ test_id := "B101", text := "bad", lineno := 3,
           severity := "LOW", confidence := "HIGH" }] = [] :=
  excluded_file_run_empty _ "a/b.py" _ (Or.inr (by decide))

/-- C2: for every file, when the resolved target path set is non-empty and
neither the file path nor any of its ancestor directories is a member of it,
the run method yields an empty sequence of result tuples. -/
theorem untargeted_file_run_empty (config : Flake8BanditConfig) (filename : String)
    (analyzerResults : List Finding)
    (hne : config.target_paths ≠ [])
    (hfile : parsePath filename ∉ config.target_paths)
    (hanc : ∀ a ∈ pyParents (parsePath filename), a ∉ config.target_paths) :
    run config filename analyzerResults = [] := by
  have hint : pathIntersects config.target_paths (scopeFilepaths (parsePath filename)) = false := by
    rw [Bool.eq_false_iff]
    intro hcon
    obtain ⟨p, hp, hmem⟩ := (pathIntersects_iff _ _).mp hcon
    rcases List.mem_cons.mp hmem with rfl | hmem2
    · exact hfile hp
    · exact hanc p hmem2 hp
  have hsup : scopeSuppressed config (parsePath filename) = true := by
    simp only [scopeSuppressed, Bool.or_eq_true, Bool.and_eq_true, Bool.not_eq_true']
    refine Or.inr ⟨?_, by simp [hint]⟩
    simpa [List.isEmpty_iff] using hne
  simp [run, check_source, hsup]

/-- Witness for C2: the target set contains only the unrelated path other,
so the file a/b.py gives no results despite an analyzer finding. -/
theorem untargeted_file_run_empty_witness :
    run { profile := { exclude := none, «include» := none },
          target_paths := [parsePath "other"],
          excluded_paths := [] } "a/b.py"
        [{ test_id := "B101", text := "bad", lineno := 3,
           severity := "LOW", confidence := "HIGH" }] = [] :=
  untargeted_file_run_empty _ "a/b.py" _ (by decide) (by decide) (by decide)

/-- Counterexample to C3: an identifier whose leading family letter is not
B is nevertheless altered by the remap, because the source performs a
blanket substring replacement; on the identifier XB01 the non-leading B is
rewritten, producing XS01 rather than leaving the identifier unchanged as
the claim states. -/
theorem remap_alters_nonleading_letter :
    (check_source { profile := { exclude := none, «include» := none },
                    target_paths := [], excluded_paths := [] } "f.py"
        [{ test_id := "XB01", text := "t", lineno := 1,
           severity := "LOW", confidence := "HIGH" }]).map (fun w => w.test_id)
      = ["XS01"]
    ∧ "XS01" ≠ "XB01" :=
  ⟨by decide, by decide⟩

/-- C3 as amended: the rule identifier remap applied to every analyzer
finding replaces every occurrence of the letter B with S throughout the
identifier; on identifiers of the standard family shape, a leading B
followed by letters other than B, this coincides with the single-character
family substitution (B101 becomes S101), and an identifier containing no B
at all is returned unchanged, but an occurrence of B elsewhere in the
identifier is also rewritten. -/
theorem remapTestId_blanket (id : String) (rest : List Char)
    (hid : 'B' ∉ id.data) (hrest : 'B' ∉ rest) :
    remapTestId id = id
    ∧ remapTestId (String.mk ('B' :: rest)) = String.mk ('S' :: rest) := by
  have hmap : ∀ l : List Char, 'B' ∉ l →
      l.map (fun c => if c = 'B' then 'S' else c) = l := by
    intro l
    induction l with
    | nil => intro _; rfl
    | cons c cs ih =>
      intro hl
      rw [List.mem_cons, not_or] at hl
      rw [List.map_cons, if_neg (Ne.symm hl.1), ih hl.2]
  constructor
  · obtain ⟨l⟩ := id
    show String.mk (l.map (fun c => if c = 'B' then 'S' else c)) = String.mk l
    rw [hmap l hid]
  · show String.mk (('B' :: rest).map (fun c => if c = 'B' then 'S' else c))
        = String.mk ('S' :: rest)
    rw [List.map_cons, hmap rest hrest]
    simp

/-- Witness for the amended C3: X101 has no B and is unchanged, and B101
becomes S101. -/
theorem remapTestId_blanket_witness :
    remapTestId "X101" = "X101"
    ∧ remapTestId (String.mk ('B' :: "101".data)) = String.mk ('S' :: "101".data) :=
  remapTestId_blanket "X101" "101".data (by decide) (by decide)

/-- Counterexample to C4: a skips entry B101 is stored under the exclude key
unchanged, not remapped to S101 as the claim direction (analyzer letter B to
host letter S) would require; the source remaps in the opposite direction. -/
theorem skips_not_remapped_B_to_S :
    (from_config_file (.ok [("skips", "B101")])).config.profile.exclude = some ["B101"]
    ∧ (some ["B101"] : Option (List String)) ≠ some ["S101"] :=
  ⟨by decide, by decide⟩

/-- C4 as amended: when the configuration section contains a non-empty skips
value, each comma-separated identifier is remapped from the host
rule-namespace letter prefix S to the analyzer native letter prefix B (every
occurrence of S is replaced by B), and the resulting list is stored under
the exclude key of the rule profile; a tests value is handled the same way
into the include key. -/
theorem skips_tests_remapped_S_to_B (items : List (String × String)) (s t : String)
    (hs : pyDictGet items "skips" = some s) (hs0 : s ≠ "")
    (ht : pyDictGet items "tests" = some t) (ht0 : t ≠ "") :
    (from_config_file (.ok items)).config.profile.exclude
      = some ((pySplit ',' s).map (fun tok => pyReplace tok 'S' 'B'))
    ∧ (from_config_file (.ok items)).config.profile.«include»
      = some ((pySplit ',' t).map (fun tok => pyReplace tok 'S' 'B')) := by
  have hrw := pySplit_pyReplace s 'S' 'B' (by decide) (by decide)
  have hrw2 := pySplit_pyReplace t 'S' 'B' (by decide) (by decide)
  constructor
  · simp [from_config_file, hs, hs0, hrw]
  · simp [from_config_file, ht, ht0, hrw2]

/-- Witness for the amended C4: S101 under skips is stored as B101 under
exclude, and B102,S103 under tests is stored as B102,B103 under include. -/
theorem skips_tests_remapped_S_to_B_witness :
    (from_config_file (.ok [("skips", "S101"), ("tests", "B102,S103")])).config.profile.exclude
      = some ["B101"]
    ∧ (from_config_file (.ok [("skips", "S101"), ("tests", "B102,S103")])).config.profile.«include»
      = some ["B102", "B103"] := by
  have h := skips_tests_remapped_S_to_B [("skips", "S101"), ("tests", "B102,S103")]
      "S101" "B102,S103" (by decide) (by decide) (by decide) (by decide)
  exact ⟨h.1.trans (by decide), h.2.trans (by decide)⟩

/-- C5: when configuration parsing fails with any error other than the
missing-section case, the error is written to the diagnostic stream,
resolution returns normally, and the returned profile keeps every field
value populated before the failure; since every raising operation in the
source precedes the population of any field, those values are exactly the
defaults, which the returned configuration carries. -/
theorem parse_error_logged_nonfatal (msg : String) (h : msg ≠ noSectionMsg) :
    from_config_file (.err msg)
      = { config := { profile := { exclude := none, «include» := none },
                      target_paths := [], excluded_paths := [] },
          stderrOutput := some ("Unable to parse config file: " ++ msg) } := by
  simp [from_config_file, h]

/-- Witness for C5: a parse error named boom is reported on the diagnostic
stream and the default configuration is returned. -/
theorem parse_error_logged_nonfatal_witness :
    from_config_file (.err "boom")
      = { config := { profile := { exclude := none, «include» := none },
                      target_paths := [], excluded_paths := [] },
          stderrOutput := some "Unable to parse config file: boom" } :=
  (parse_error_logged_nonfatal "boom" (by decide)).trans (by decide)

/-- C6: when the recognized configuration section is absent, which is also
what a missing configuration file surfaces as, resolution returns the
all-empty default profile, does not raise, and writes nothing to the
diagnostic stream. -/
theorem missing_section_empty_profile_silent :
    from_config_file (.err noSectionMsg)
      = { config := { profile := { exclude := none, «include» := none },
                      target_paths := [], excluded_paths := [] },
          stderrOutput := none } := by
  decide

/-- C7: whenever the scope filter does not suppress the file, the run method
yields, for each analyzer finding in order, exactly one tuple consisting of
the finding line number, the column 0, the message built from the fixed
template with the remapped rule identifier, the finding text, the
confidence and the severity, and the adapter type identifier. -/
theorem run_emits_template_tuples (config : Flake8BanditConfig) (filename : String)
    (analyzerResults : List Finding)
    (h : scopeSuppressed config (parsePath filename) = false) :
    run config filename analyzerResults
      = analyzerResults.map (fun item =>
          (item.lineno, 0,
            remapTestId item.test_id ++ " " ++ item.text ++ " (CL: " ++ item.confidence
              ++ ", risk: " ++ item.severity ++ ")",
            OriginType.banditTester)) := by
  simp [run, check_source, h]

/-- Witness for C7, matching the first end-to-end scenario of the
specification: a B105 finding at line 3 becomes the single tuple with the
formatted S105 message. -/
theorem run_emits_template_tuples_witness :
    run { profile := { exclude := none, «include» := none },
          target_paths := [], excluded_paths := [] } "mod.py"
        [{ test_id := "B105", text := "Hardcoded password", lineno := 3,
           severity := "LOW", confidence := "HIGH" }]
      = [(3, 0, "S105 Hardcoded password (CL: HIGH, risk: LOW)", OriginType.banditTester)] :=
  (run_emits_template_tuples
    { profile := { exclude := none, «include» := none },
      target_paths := [], excluded_paths := [] } "mod.py"
    [{ test_id := "B105", text := "Hardcoded password", lineno := 3,
       severity := "LOW", confidence := "HIGH" }] (by decide)).trans (by decide)

/-- C8: every path listed under the targets or exclude configuration keys
that begins with the path separator is rewritten by prefixing it with a dot,
keeping the leading separator, before being added to the target or excluded
path set respectively, and every other path is added unchanged. -/
theorem targets_exclude_abs_rewrite (items : List (String × String)) (s e : String)
    (hs : pyDictGet items "targets" = some s) (hs0 : s ≠ "")
    (he : pyDictGet items "exclude" = some e) (he0 : e ≠ "") :
    (from_config_file (.ok items)).config.target_paths
      = (pySplit ',' s).map (fun p =>
          parsePath (if pyStartsWith p '/' then "." ++ p else p))
    ∧ (from_config_file (.ok items)).config.excluded_paths
      = (pySplit ',' e).map (fun p =>
          parsePath (if pyStartsWith p '/' then "." ++ p else p)) := by
  constructor
  · simp [from_config_file, hs, hs0, pyAbsRewrite]
  · simp [from_config_file, he, he0, pyAbsRewrite]

/-- Witness for C8: the absolute targets entry /abs/p becomes ./abs/p, the
relative entry rel/q stays unchanged, and the absolute exclude entry /x
becomes ./x. -/
theorem targets_exclude_abs_rewrite_witness :
    (from_config_file (.ok [("targets", "/abs/p,rel/q"), ("exclude", "/x")])).config.target_paths
      = [parsePath "./abs/p", parsePath "rel/q"]
    ∧ (from_config_file (.ok [("targets", "/abs/p,rel/q"), ("exclude", "/x")])).config.excluded_paths
      = [parsePath "./x"] := by
  have h := targets_exclude_abs_rewrite [("targets", "/abs/p,rel/q"), ("exclude", "/x")]
      "/abs/p,rel/q" "/x" (by decide) (by decide) (by decide) (by decide)
  exact ⟨h.1.trans (by decide), h.2.trans (by decide)⟩

/-- C9: the prefix remap applied to the skips and tests configuration values
is a blanket replacement of every occurrence of the letter S with B over the
entire comma-separated string before it is split, which is the same as
splitting first and rewriting every occurrence of S, at any position, in
every token. -/
theorem skips_tests_blanket_whole_string (items : List (String × String)) (s t : String)
    (hs : pyDictGet items "skips" = some s) (hs0 : s ≠ "")
    (ht : pyDictGet items "tests" = some t) (ht0 : t ≠ "") :
    (from_config_file (.ok items)).config.profile.exclude
      = some (pySplit ',' (pyReplace s 'S' 'B'))
    ∧ pySplit ',' (pyReplace s 'S' 'B')
      = (pySplit ',' s).map (fun tok =>
          String.mk (tok.data.map (fun c => if c = 'S' then 'B' else c)))
    ∧ (from_config_file (.ok items)).config.profile.«include»
      = some (pySplit ',' (pyReplace t 'S' 'B'))
    ∧ pySplit ',' (pyReplace t 'S' 'B')
      = (pySplit ',' t).map (fun tok =>
          String.mk (tok.data.map (fun c => if c = 'S' then 'B' else c))) := by
  refine ⟨?_, ?_, ?_, ?_⟩
  · simp [from_config_file, hs, hs0]
  · exact pySplit_pyReplace s 'S' 'B' (by decide) (by decide)
  · simp [from_config_file, ht, ht0]
  · exact pySplit_pyReplace t 'S' 'B' (by decide) (by decide)

/-- Witness for C9: the skips value BS5,XSS stores BB5,XBB, rewriting S
occurrences that are not a leading family prefix, and the tests value S1
stores B1. -/
theorem skips_tests_blanket_whole_string_witness :
    (from_config_file (.ok [("skips", "BS5,XSS"), ("tests", "S1")])).config.profile.exclude
      = some ["BB5", "XBB"]
    ∧ (from_config_file (.ok [("skips", "BS5,XSS"), ("tests", "S1")])).config.profile.«include»
      = some ["B1"] := by
  have h := skips_tests_blanket_whole_string [("skips", "BS5,XSS"), ("tests", "S1")]
      "BS5,XSS" "S1" (by decide) (by decide) (by decide) (by decide)
  exact ⟨h.1.trans (by decide), h.2.2.1.trans (by decide)⟩

/-- C10: the scope filter matches by exact path-value equality: a single
configured excluded path suppresses a file exactly when it equals the file
path or one of its ancestor directory paths as a normalized path value, a
single configured target path admits a file under the same exact condition,
and when the configured path and the file path differ in the absolute flag,
a relative path against an absolute file or conversely, the excluded path
never suppresses and the target path never admits. -/
theorem scope_match_exact_path_equality (cfg fp : PyPath) (pr : RuleProfile) :
    (scopeSuppressed { profile := pr, target_paths := [], excluded_paths := [cfg] } fp = true
      ↔ (cfg = fp ∨ cfg ∈ pyParents fp))
    ∧ (scopeSuppressed { profile := pr, target_paths := [cfg], excluded_paths := [] } fp = false
      ↔ (cfg = fp ∨ cfg ∈ pyParents fp))
    ∧ (cfg.absolute ≠ fp.absolute →
        scopeSuppressed { profile := pr, target_paths := [], excluded_paths := [cfg] } fp = false
        ∧ scopeSuppressed { profile := pr, target_paths := [cfg], excluded_paths := [] } fp = true) := by
  refine ⟨?_, ?_, ?_⟩
  · simp [scopeSuppressed, pathIntersects, scopeFilepaths]
  · simp only [scopeSuppressed, pathIntersects, scopeFilepaths]
    simp
    tauto
  · intro hab
    have h1 : cfg ≠ fp := fun h => hab (by rw [h])
    have h2 : cfg ∉ pyParents fp := fun h => hab (mem_pyParents_absolute h)
    constructor
    · simp [scopeSuppressed, pathIntersects, scopeFilepaths, h1, h2]
    · simp [scopeSuppressed, pathIntersects, scopeFilepaths, h1, h2]

/-- Witness for C10: the absolute excluded path /a does not suppress the
relative file a/b.py, while the relative target path a admits it because a
is exactly an ancestor path value. -/
theorem scope_match_exact_path_equality_witness :
    scopeSuppressed { profile := { exclude := none, «include» := none },
                      target_paths := [], excluded_paths := [parsePath "/a"] }
        (parsePath "a/b.py") = false
    ∧ scopeSuppressed { profile := { exclude := none, «include» := none },
                        target_paths := [parsePath "a"], excluded_paths := [] }
        (parsePath "a/b.py") = false :=
  ⟨((scope_match_exact_path_equality (parsePath "/a") (parsePath "a/b.py")
      { exclude := none, «include» := none }).2.2 (by decide)).1,
   (scope_match_exact_path_equality (parsePath "a") (parsePath "a/b.py")
      { exclude := none, «include» := none }).2.1.mpr (by decide)⟩
